import Mathlib

/-!
# imgui-sys: build-variant translation units and the backend header

A shallow embedding of the five files under `imgui-sys/`:

* the four "unity build" translation units `include_all_imgui.cpp`,
  `include_imgui_docking.cpp`, `include_imgui_docking_freetype.cpp`,
  `include_imgui_master.cpp`, each a list of `#include` lines, two of them with an
  `#ifdef IMGUI_ENABLE_FREETYPE` block;
* `third-party/imgui-docking/cimgui_impl.h`, four `#ifdef` groups of C declarations.

The files are programs of the C preprocessor.  They are embedded line by line as lists of
`Line`s and run by `preprocess`, the conditional-inclusion semantics of `#ifdef` / `#endif`.
-/

namespace ImguiSys

/-! ## The preprocessor fragment the sources use -/

/-- One source line as the preprocessor sees it: `#ifdef M`, `#endif`, or a line that is
passed through when the enclosing conditionals hold (`item`).  Comment lines and blank lines
produce nothing and are left out. -/
inductive Line (α : Type) where
  | ifdef (flag : String)
  | endif
  | item (a : α)
  deriving Repr, DecidableEq

/-- Conditional inclusion.  `defined m` says whether the name `m` is defined when its `#ifdef`
is reached; `stack` holds the values of the enclosing `#ifdef`s, innermost first.  A line is
emitted exactly when every enclosing conditional holds. -/
def preprocess {α : Type} (defined : String → Bool) : List (Line α) → List Bool → List α
  | [], _ => []
  | Line.ifdef m :: rest, stack => preprocess defined rest (defined m :: stack)
  | Line.endif :: rest, stack => preprocess defined rest stack.tail
  | Line.item a :: rest, stack =>
      if stack.all id then a :: preprocess defined rest stack
      else preprocess defined rest stack

/-- The paths a translation unit `#include`s, in order, under a given setting of names. -/
def includes (defined : String → Bool) (unit : List (Line String)) : List String :=
  preprocess defined unit []

/-! ## The four translation units -/

/-- `include_all_imgui.cpp`, lines 5-9 (vanilla). -/
def include_all_imgui : List (Line String) :=
  [ .item "./third-party/cimgui/imgui/imgui.cpp",
    .item "./third-party/cimgui/imgui/imgui_demo.cpp",
    .item "./third-party/cimgui/imgui/imgui_draw.cpp",
    .item "./third-party/cimgui/imgui/imgui_widgets.cpp",
    .item "./third-party/cimgui/cimgui.cpp" ]

/-- `include_imgui_docking.cpp`, lines 5-14 (docking). -/
def include_imgui_docking : List (Line String) :=
  [ .item "./third-party/imgui-docking/imgui.cpp",
    .item "./third-party/imgui-docking/imgui_demo.cpp",
    .item "./third-party/imgui-docking/imgui_draw.cpp",
    .item "./third-party/imgui-docking/imgui_widgets.cpp",
    .item "./third-party/imgui-docking/imgui_tables.cpp",
    .item "./third-party/cimgui-docking/cimgui.cpp",
    Line.ifdef "IMGUI_ENABLE_FREETYPE",
    .item "./third-party/imgui-docking/misc/freetype/imgui_freetype.cpp",
    .endif ]

/-- `include_imgui_docking_freetype.cpp`, lines 5-12 (docking with font hinting). -/
def include_imgui_docking_freetype : List (Line String) :=
  [ .item "./third-party/imgui-docking-freetype/imgui/imgui.cpp",
    .item "./third-party/imgui-docking-freetype/imgui/imgui_demo.cpp",
    .item "./third-party/imgui-docking-freetype/imgui/imgui_draw.cpp",
    .item "./third-party/imgui-docking-freetype/imgui/imgui_widgets.cpp",
    .item "./third-party/imgui-docking-freetype/imgui/imgui_tables.cpp",
    .item "./third-party/imgui-docking-freetype/cimgui.cpp",
    .item "./third-party/imgui-docking-freetype/imgui/misc/freetype/imgui_freetype.cpp" ]

/-- `include_imgui_master.cpp`, lines 5-14 (latest-tracking). -/
def include_imgui_master : List (Line String) :=
  [ .item "./third-party/imgui-master/imgui/imgui.cpp",
    .item "./third-party/imgui-master/imgui/imgui_demo.cpp",
    .item "./third-party/imgui-master/imgui/imgui_draw.cpp",
    .item "./third-party/imgui-master/imgui/imgui_widgets.cpp",
    .item "./third-party/imgui-master/imgui/imgui_tables.cpp",
    .item "./third-party/imgui-master/cimgui.cpp",
    Line.ifdef "IMGUI_ENABLE_FREETYPE",
    .item "./third-party/imgui-master/imgui/misc/freetype/imgui_freetype.cpp",
    .endif ]

/-- The build variants, one translation unit each. -/
inductive Variant where
  | vanilla
  | docking
  | dockingFreetype
  | master
  deriving Repr, DecidableEq, Fintype

/-- The translation unit that assembles a variant. -/
def Variant.unit : Variant → List (Line String)
  | .vanilla => include_all_imgui
  | .docking => include_imgui_docking
  | .dockingFreetype => include_imgui_docking_freetype
  | .master => include_imgui_master

/-! ## Observations on include paths -/

/-- Splits a path at every `/`; `acc` holds the current segment reversed. -/
def splitSlash : List Char → List Char → List String
  | [], acc => [String.mk acc.reverse]
  | c :: cs, acc =>
      if c = '/' then String.mk acc.reverse :: splitSlash cs [] else splitSlash cs (c :: acc)

/-- Segments of an include path: `"./third-party/cimgui/cimgui.cpp"` has the four segments
`.`, `third-party`, `cimgui`, `cimgui.cpp`. -/
def segments (path : String) : List String := splitSlash path.data []

/-- File name of an include path: its last segment. -/
def fileName (path : String) : String := (segments path).getLast?.getD ""

/-- Vendored directory of an include path: the segment right below `./third-party/`. -/
def vendorDir (path : String) : String := (segments path).getD 2 ""

/-- A font-hinting rasterizer source: a file named `imgui_freetype.cpp`. -/
def isFreetypeSource (path : String) : Bool := fileName path == "imgui_freetype.cpp"

/-- A facade source: a file named `cimgui.cpp`. -/
def isFacadeSource (path : String) : Bool := fileName path == "cimgui.cpp"

/-- An engine source: one of the engine's own files `imgui.cpp`, `imgui_demo.cpp`,
`imgui_draw.cpp`, `imgui_widgets.cpp`, `imgui_tables.cpp`. -/
def isEngineSource (path : String) : Bool :=
  ["imgui.cpp", "imgui_demo.cpp", "imgui_draw.cpp", "imgui_widgets.cpp", "imgui_tables.cpp"].contains
    (fileName path)

/-- The vendored directory the engine sources (and the font-hinting source) of a variant are
included from. -/
def Variant.engineDir : Variant → String
  | .vanilla => "cimgui"
  | .docking => "imgui-docking"
  | .dockingFreetype => "imgui-docking-freetype"
  | .master => "imgui-master"

/-- The vendored directory the facade source of a variant is included from. -/
def Variant.facadeDir : Variant → String
  | .vanilla => "cimgui"
  | .docking => "cimgui-docking"
  | .dockingFreetype => "imgui-docking-freetype"
  | .master => "imgui-master"

/-- The name of the font-hinting flag. -/
def freetypeFlag : String := "IMGUI_ENABLE_FREETYPE"

/-- The setting in which no name is defined. -/
def noneDefined : String → Bool := fun _ => false

/-- The setting in which exactly the name `m` is defined. -/
def onlyDefined (m : String) : String → Bool := fun x => x == m

/-! ## `cimgui_impl.h`: C declarations -/

/-- C (and C++) types as they are spelled in declarations.  `named` is a typedef name,
`structTag n` is `struct n`, `ref` is a C++ reference `T&`. -/
inductive CType where
  | void
  | bool
  | int
  | unsignedInt
  | double
  | char
  | named (n : String)
  | structTag (n : String)
  | const (t : CType)
  | ptr (t : CType)
  | ref (t : CType)
  deriving Repr, DecidableEq

/-- One parameter: its type, its name, and its default argument when it has one. -/
structure Param where
  ty : CType
  name : String
  defaultArg : Option String
  deriving Repr, DecidableEq

/-- A parameter list: `(void)`, or `(p1, ..., pn)` where `list []` is the empty `()`. -/
inductive ParamList where
  | void
  | list (ps : List Param)
  deriving Repr, DecidableEq

/-- A function declaration `CIMGUI_API ret name(params);`. -/
structure FuncDecl where
  ret : CType
  name : String
  params : ParamList
  deriving Repr, DecidableEq

/-- The declarations that occur in the header. -/
inductive Decl where
  | typedefStruct (tag name : String)
  | typedefUnion (tag name : String)
  | typedefEnum (enumerators : List String) (name : String)
  | structFwd (tag : String)
  | func (f : FuncDecl)
  deriving Repr, DecidableEq

/-- A parameter without default argument. -/
def arg (ty : CType) (name : String) : Param := ⟨ty, name, none⟩

/-- A function declaration with the parameters `ps`. -/
def fn (ret : CType) (name : String) (ps : List Param) : Line Decl :=
  .item (.func ⟨ret, name, .list ps⟩)

/-- A function declaration with the parameter list `(void)`. -/
def fnVoid (ret : CType) (name : String) : Line Decl :=
  .item (.func ⟨ret, name, .void⟩)

/-- The type `GLFWwindow*`. -/
def glfwWindowPtr : CType := .ptr (.named "GLFWwindow")

/-- The type `SDL_Window*`. -/
def sdlWindowPtr : CType := .ptr (.named "SDL_Window")

/-- `third-party/imgui-docking/cimgui_impl.h`, lines 1-66. -/
def cimgui_impl_h : List (Line Decl) :=
  [ Line.ifdef "CIMGUI_USE_GLFW",
    .item (.typedefStruct "GLFWwindow" "GLFWwindow"),
    .item (.typedefStruct "GLFWmonitor" "GLFWmonitor"),
    .item (.structFwd "GLFWwindow"),
    .item (.structFwd "GLFWmonitor"),
    fn .bool "ImGui_ImplGlfw_InitForOpenGL" [arg glfwWindowPtr "window", arg .bool "install_callbacks"],
    fn .bool "ImGui_ImplGlfw_InitForVulkan" [arg glfwWindowPtr "window", arg .bool "install_callbacks"],
    fn .bool "ImGui_ImplGlfw_InitForOther" [arg glfwWindowPtr "window", arg .bool "install_callbacks"],
    fnVoid .void "ImGui_ImplGlfw_Shutdown",
    fnVoid .void "ImGui_ImplGlfw_NewFrame",
    fn .void "ImGui_ImplGlfw_InstallCallbacks" [arg glfwWindowPtr "window"],
    fn .void "ImGui_ImplGlfw_RestoreCallbacks" [arg glfwWindowPtr "window"],
    fn .void "ImGui_ImplGlfw_SetCallbacksChainForAllWindows" [arg .bool "chain_for_all_windows"],
    fn .void "ImGui_ImplGlfw_WindowFocusCallback" [arg glfwWindowPtr "window", arg .int "focused"],
    fn .void "ImGui_ImplGlfw_CursorEnterCallback" [arg glfwWindowPtr "window", arg .int "entered"],
    fn .void "ImGui_ImplGlfw_CursorPosCallback"
      [arg glfwWindowPtr "window", arg .double "x", arg .double "y"],
    fn .void "ImGui_ImplGlfw_MouseButtonCallback"
      [arg glfwWindowPtr "window", arg .int "button", arg .int "action", arg .int "mods"],
    fn .void "ImGui_ImplGlfw_ScrollCallback"
      [arg glfwWindowPtr "window", arg .double "xoffset", arg .double "yoffset"],
    fn .void "ImGui_ImplGlfw_KeyCallback"
      [arg glfwWindowPtr "window", arg .int "key", arg .int "scancode", arg .int "action",
        arg .int "mods"],
    fn .void "ImGui_ImplGlfw_CharCallback" [arg glfwWindowPtr "window", arg .unsignedInt "c"],
    fn .void "ImGui_ImplGlfw_MonitorCallback"
      [arg (.ptr (.named "GLFWmonitor")) "monitor", arg .int "event"],
    .endif,
    Line.ifdef "CIMGUI_USE_OPENGL3",
    fn .bool "ImGui_ImplOpenGL3_Init" [arg (.ptr (.const .char)) "glsl_version"],
    fnVoid .void "ImGui_ImplOpenGL3_Shutdown",
    fnVoid .void "ImGui_ImplOpenGL3_NewFrame",
    fn .void "ImGui_ImplOpenGL3_RenderDrawData" [arg (.ptr (.named "ImDrawData")) "draw_data"],
    fnVoid .bool "ImGui_ImplOpenGL3_CreateFontsTexture",
    fnVoid .void "ImGui_ImplOpenGL3_DestroyFontsTexture",
    fnVoid .bool "ImGui_ImplOpenGL3_CreateDeviceObjects",
    fnVoid .void "ImGui_ImplOpenGL3_DestroyDeviceObjects",
    .endif,
    Line.ifdef "CIMGUI_USE_OPENGL2",
    fnVoid .bool "ImGui_ImplOpenGL2_Init",
    fnVoid .void "ImGui_ImplOpenGL2_Shutdown",
    fnVoid .void "ImGui_ImplOpenGL2_NewFrame",
    fn .void "ImGui_ImplOpenGL2_RenderDrawData" [arg (.ptr (.named "ImDrawData")) "draw_data"],
    fnVoid .bool "ImGui_ImplOpenGL2_CreateFontsTexture",
    fnVoid .void "ImGui_ImplOpenGL2_DestroyFontsTexture",
    fnVoid .bool "ImGui_ImplOpenGL2_CreateDeviceObjects",
    fnVoid .void "ImGui_ImplOpenGL2_DestroyDeviceObjects",
    .endif,
    Line.ifdef "CIMGUI_USE_SDL2",
    .item (.typedefStruct "SDL_Window" "SDL_Window"),
    .item (.typedefStruct "SDL_Renderer" "SDL_Renderer"),
    .item (.typedefStruct "_SDL_GameController" "_SDL_GameController"),
    .item (.structFwd "SDL_Window"),
    .item (.structFwd "SDL_Renderer"),
    .item (.structFwd "_SDL_GameController"),
    .item (.typedefUnion "SDL_Event" "SDL_Event"),
    .item (.typedefEnum
      ["ImGui_ImplSDL2_GamepadMode_AutoFirst", "ImGui_ImplSDL2_GamepadMode_AutoAll",
        "ImGui_ImplSDL2_GamepadMode_Manual"]
      "ImGui_ImplSDL2_GamepadMode"),
    fn .bool "ImGui_ImplSDL2_InitForOpenGL" [arg sdlWindowPtr "window", arg (.ptr .void) "sdl_gl_context"],
    fn .bool "ImGui_ImplSDL2_InitForVulkan" [arg sdlWindowPtr "window"],
    fn .bool "ImGui_ImplSDL2_InitForD3D" [arg sdlWindowPtr "window"],
    fn .bool "ImGui_ImplSDL2_InitForMetal" [arg sdlWindowPtr "window"],
    fn .bool "ImGui_ImplSDL2_InitForSDLRenderer"
      [arg sdlWindowPtr "window", arg (.ptr (.named "SDL_Renderer")) "renderer"],
    fn .bool "ImGui_ImplSDL2_InitForOther" [arg sdlWindowPtr "window"],
    fnVoid .void "ImGui_ImplSDL2_Shutdown",
    fnVoid .void "ImGui_ImplSDL2_NewFrame",
    fn .bool "ImGui_ImplSDL2_ProcessEvent" [arg (.ptr (.const (.named "SDL_Event"))) "event"],
    fn .void "ImGui_ImplSDL2_SetGamepadMode"
      [arg (.named "ImGui_ImplSDL2_GamepadMode") "mode",
        arg (.ptr (.ptr (.structTag "_SDL_GameController"))) "manual_gamepads_array",
        arg .int "manual_gamepads_count"],
    .endif ]

/-- The declarations the header makes under a given setting of names. -/
def declarations (defined : String → Bool) : List Decl :=
  preprocess defined cimgui_impl_h []

/-- The function declarations among a list of declarations. -/
def functionsOf : List Decl → List FuncDecl
  | [] => []
  | .func f :: ds => f :: functionsOf ds
  | _ :: ds => functionsOf ds

/-- The functions the header declares under a given setting of names. -/
def declaredFunctions (defined : String → Bool) : List FuncDecl :=
  functionsOf (declarations defined)

/-- The backend groups of the header. -/
inductive Backend where
  | glfw
  | opengl3
  | opengl2
  | sdl2
  deriving Repr, DecidableEq, Fintype

/-- The capability flag that guards a backend group. -/
def Backend.flag : Backend → String
  | .glfw => "CIMGUI_USE_GLFW"
  | .opengl3 => "CIMGUI_USE_OPENGL3"
  | .opengl2 => "CIMGUI_USE_OPENGL2"
  | .sdl2 => "CIMGUI_USE_SDL2"

/-- The leading part shared by the function names of a backend group. -/
def Backend.head : Backend → String
  | .glfw => "ImGui_ImplGlfw_"
  | .opengl3 => "ImGui_ImplOpenGL3_"
  | .opengl2 => "ImGui_ImplOpenGL2_"
  | .sdl2 => "ImGui_ImplSDL2_"

/-- Whether the string `s` begins with `p`. -/
def beginsWith (p s : String) : Bool := p.data.isPrefixOf s.data

/-- Whether a function belongs to the group of backend `b`, judged by its name. -/
def inGroup (b : Backend) (f : FuncDecl) : Bool := beginsWith b.head f.name

/-- The functions of backend `b` declared under a given setting of names. -/
def group (defined : String → Bool) (b : Backend) : List FuncDecl :=
  (declaredFunctions defined).filter (inGroup b)

/-- The operation name of a function of group `b`: its name after the group's leading part. -/
def opName (b : Backend) (f : FuncDecl) : String := String.mk (f.name.data.drop b.head.data.length)

/-- The operation names of group `b`, in declaration order. -/
def operations (defined : String → Bool) (b : Backend) : List String :=
  (group defined b).map (opName b)

/-- The declaration of operation `op` in group `b`, when there is one. -/
def findOp (defined : String → Bool) (b : Backend) (op : String) : Option FuncDecl :=
  (group defined b).find? (fun f => opName b f == op)

/-- The setting in which exactly the flags of the backends in `bs` are defined. -/
def flagsDefined (bs : List Backend) : String → Bool := fun m => bs.any (fun b => b.flag == m)

/-- The setting that defines each of the four capability flags as told and no other name. -/
def capabilities (glfw opengl3 opengl2 sdl2 : Bool) : String → Bool := fun m =>
  (glfw && m == "CIMGUI_USE_GLFW") || (opengl3 && m == "CIMGUI_USE_OPENGL3")
    || (opengl2 && m == "CIMGUI_USE_OPENGL2") || (sdl2 && m == "CIMGUI_USE_SDL2")

/-- Every passed-through line of a file, conditionals ignored. -/
def allItems {α : Type} : List (Line α) → List α
  | [] => []
  | Line.item a :: rest => a :: allItems rest
  | _ :: rest => allItems rest

/-- The names a file tests with `#ifdef`. -/
def testedNames {α : Type} : List (Line α) → List String
  | [] => []
  | Line.ifdef m :: rest => m :: testedNames rest
  | _ :: rest => testedNames rest

/-- Every function declaration written in the header, whatever its guard. -/
def headerFunctions : List FuncDecl := functionsOf (allItems cimgui_impl_h)

/-- Operations that report success: the name begins with `Init` or `Create`, or is
`ProcessEvent`. -/
def returnsStatus (op : String) : Bool :=
  beginsWith "Init" op || beginsWith "Create" op || op == "ProcessEvent"

/-- The parameters of a function; `(void)` has none. -/
def paramsOf (f : FuncDecl) : List Param :=
  match f.params with
  | .void => []
  | .list ps => ps

/-- The names the header gives to enums with `typedef enum`. -/
def enumNames : List Decl → List String
  | [] => []
  | .typedefEnum _ n :: ds => n :: enumNames ds
  | _ :: ds => enumNames ds

/-- The names the header gives to forward-declared structs and unions with `typedef`. -/
def aggregateNames : List Decl → List String
  | [] => []
  | .typedefStruct _ n :: ds => n :: aggregateNames ds
  | .typedefUnion _ n :: ds => n :: aggregateNames ds
  | _ :: ds => aggregateNames ds

/-- The struct tags the header declares. -/
def structTags : List Decl → List String
  | [] => []
  | .typedefStruct t _ :: ds => t :: structTags ds
  | .structFwd t :: ds => t :: structTags ds
  | _ :: ds => structTags ds

/-- Modelled from the spec: the struct types of the facade's main header `cimgui.h`, which is
not among the sources.  `cimgui_impl.h` uses one of them, `ImDrawData`, the per-frame draw
data that the spec lists among the structs exposed across the boundary. -/
def externalStructs : List String := ["ImDrawData"]

/-- A struct or union type, by typedef name or by tag, given the declarations in scope. -/
def isAggregate (ds : List Decl) : CType → Bool
  | .named n => (aggregateNames ds).contains n || externalStructs.contains n
  | .structTag n => (structTags ds).contains n
  | _ => false

/-- What a pointer may point to: `void`, `const char`, a struct or union (possibly `const`),
or another such pointer. -/
def pointeeOk (ds : List Decl) : CType → Bool
  | .void => true
  | .ptr t => pointeeOk ds t
  | .const t => t == CType.char || isAggregate ds t
  | t => isAggregate ds t

/-- C-compatible parameter and return types: `void`, `bool`, `int`, `unsigned int`, `double`,
an enum declared in the header, or a pointer to an admissible pointee. -/
def cCompatible (ds : List Decl) : CType → Bool
  | .void => true
  | .bool => true
  | .int => true
  | .unsignedInt => true
  | .double => true
  | .named n => (enumNames ds).contains n
  | .ptr t => pointeeOk ds t
  | _ => false

/-- Whether a type is or contains a C++ reference. -/
def usesReference : CType → Bool
  | .ref _ => true
  | .const t => usesReference t
  | .ptr t => usesReference t
  | _ => false

/-! ## GLFW callback installation -/

/-- The window events for which the header declares a GLFW callback taking the window:
`WindowFocus`, `CursorEnter`, `CursorPos`, `MouseButton`, `Scroll`, `Key`, `Char`. -/
inductive WindowEvent where
  | windowFocus
  | cursorEnter
  | cursorPos
  | mouseButton
  | scroll
  | key
  | char
  deriving Repr, DecidableEq, Fintype

/-- A callback pointer: null, a handler of the application, or one of the backend's own
handlers `ImGui_ImplGlfw_*Callback`. -/
inductive Handler where
  | null
  | user (address : Nat)
  | backendWindow (e : WindowEvent)
  | backendMonitor
  deriving Repr, DecidableEq

/-- Modelled from the spec: the state the GLFW platform backend works on.  The bodies of the
backend's functions are in the vendored `imgui_impl_glfw.cpp`, which is not among the sources;
only their declarations in `cimgui_impl.h` are.  `callbacks w e` is the callback pointer
currently registered on window `w` for event `e`, `monitor` the registered monitor callback;
`prevWindow`, `prevMonitor` and `installed` are the backend's bookkeeping of "installed
callback pointers" (spec, BackendState). -/
structure GlfwState where
  callbacks : Nat → WindowEvent → Handler
  monitor : Handler
  prevWindow : WindowEvent → Handler
  prevMonitor : Handler
  installed : Bool

/-- Modelled from the spec: `ImGui_ImplGlfw_InstallCallbacks(window)`, whose body is not among
the sources.  It registers the backend's per-event handlers on the window and keeps "the
previously registered handler" of each, to which the backend's handlers forward. -/
def ImGui_ImplGlfw_InstallCallbacks (window : Nat) (s : GlfwState) : GlfwState :=
  { callbacks := fun w e => if w = window then Handler.backendWindow e else s.callbacks w e
    monitor := Handler.backendMonitor
    prevWindow := s.callbacks window
    prevMonitor := s.monitor
    installed := true }

/-- Modelled from the spec: `ImGui_ImplGlfw_RestoreCallbacks(window)`, whose body is not among
the sources.  It "restores any replaced callbacks": each kept handler is registered again on
the window, and the bookkeeping is cleared. -/
def ImGui_ImplGlfw_RestoreCallbacks (window : Nat) (s : GlfwState) : GlfwState :=
  { callbacks := fun w e => if w = window then s.prevWindow e else s.callbacks w e
    monitor := s.prevMonitor
    prevWindow := fun _ => Handler.null
    prevMonitor := Handler.null
    installed := false }

/-! ## Exposed symbols of a variant -/

/-- Two settings that agree on the names a file tests give the same output. -/
theorem preprocess_congr {α : Type} (d1 d2 : String → Bool) (ls : List (Line α))
    (h : ∀ m ∈ testedNames ls, d1 m = d2 m) (stack : List Bool) :
    preprocess d1 ls stack = preprocess d2 ls stack := by
  induction ls generalizing stack with
  | nil => rfl
  | cons l rest ih =>
    cases l with
    | ifdef m =>
      have hm : d1 m = d2 m := h m (by simp [testedNames])
      have hr : ∀ x ∈ testedNames rest, d1 x = d2 x := fun x hx => h x (by simp [testedNames, hx])
      simp only [preprocess, hm]
      exact ih hr _
    | endif =>
      simp only [preprocess]
      exact ih (fun x hx => h x (by simpa [testedNames] using hx)) _
    | item a =>
      simp only [preprocess]
      rw [ih (fun x hx => h x (by simpa [testedNames] using hx)) stack]

/-- Whatever the setting, the output of a file is drawn from its passed-through lines. -/
theorem preprocess_subset_allItems {α : Type} (d : String → Bool) (ls : List (Line α))
    (stack : List Bool) : preprocess d ls stack ⊆ allItems ls := by
  induction ls generalizing stack with
  | nil => simp [preprocess]
  | cons l rest ih =>
    cases l with
    | ifdef m => simpa [preprocess, allItems] using ih _
    | endif => simpa [preprocess, allItems] using ih _
    | item a =>
      simp only [preprocess, allItems]
      split
      · exact List.cons_subset_cons a (ih stack)
      · exact List.subset_cons_of_subset a (ih stack)

/-! ## Translation units: what depends on the font-hinting flag -/

/-- The include list of a unit depends on the setting of names only through the
font-hinting flag. -/
theorem includes_depends_on_flag (v : Variant) (d : String → Bool) :
    includes d v.unit = includes (fun _ => d freetypeFlag) v.unit := by
  cases v <;> cases h : d "IMGUI_ENABLE_FREETYPE" <;>
    simp [includes, preprocess, Variant.unit, include_all_imgui, include_imgui_docking,
      include_imgui_docking_freetype, include_imgui_master, freetypeFlag, h]

/-- C10: in the docking unit and in the latest-tracking unit the include list under any
setting is the list without the flag followed by `imgui_freetype.cpp` exactly when
`IMGUI_ENABLE_FREETYPE` is defined; a font-hinting source is present if and only if the flag
is defined and is then the last include; the vanilla unit has the same include list under
every setting and never a font-hinting source. -/
theorem freetype_include_gated_by_flag (d : String → Bool) :
    includes d include_imgui_docking =
        includes noneDefined include_imgui_docking ++
          (if d freetypeFlag then
            ["./third-party/imgui-docking/misc/freetype/imgui_freetype.cpp"] else [])
    ∧ includes d include_imgui_master =
        includes noneDefined include_imgui_master ++
          (if d freetypeFlag then
            ["./third-party/imgui-master/imgui/misc/freetype/imgui_freetype.cpp"] else [])
    ∧ (includes d include_imgui_docking).any isFreetypeSource = d freetypeFlag
    ∧ (includes d include_imgui_master).any isFreetypeSource = d freetypeFlag
    ∧ (includes noneDefined include_imgui_docking).any isFreetypeSource = false
    ∧ (includes noneDefined include_imgui_master).any isFreetypeSource = false
    ∧ (includes d include_imgui_docking).getLast? =
        some (if d freetypeFlag then
          "./third-party/imgui-docking/misc/freetype/imgui_freetype.cpp"
          else "./third-party/cimgui-docking/cimgui.cpp")
    ∧ (includes d include_imgui_master).getLast? =
        some (if d freetypeFlag then
          "./third-party/imgui-master/imgui/misc/freetype/imgui_freetype.cpp"
          else "./third-party/imgui-master/cimgui.cpp")
    ∧ includes d include_all_imgui = includes noneDefined include_all_imgui
    ∧ (includes d include_all_imgui).any isFreetypeSource = false := by
  have hd := includes_depends_on_flag .docking d
  have hm := includes_depends_on_flag .master d
  have hv := includes_depends_on_flag .vanilla d
  simp only [Variant.unit] at hd hm hv
  rw [hd, hm, hv]
  cases d freetypeFlag <;> decide

/-- C1, the claim as stated fails: with no name defined, the docking+hinting unit
`include_imgui_docking_freetype.cpp` still includes a font-hinting source. -/
theorem docking_freetype_unit_includes_freetype_unflagged :
    noneDefined freetypeFlag = false
    ∧ "./third-party/imgui-docking-freetype/imgui/misc/freetype/imgui_freetype.cpp"
        ∈ includes noneDefined include_imgui_docking_freetype
    ∧ isFreetypeSource
        "./third-party/imgui-docking-freetype/imgui/misc/freetype/imgui_freetype.cpp" = true := by
  decide

/-- C1, amended: for the vanilla, docking and latest-tracking units and every setting of
names in which `IMGUI_ENABLE_FREETYPE` is not defined, the include list has no font-hinting
source; the docking+hinting unit includes its `imgui_freetype.cpp` under every setting,
whether the flag is defined or not. -/
theorem no_freetype_source_without_flag (d : String → Bool) :
    (d freetypeFlag = false →
      (includes d include_all_imgui).any isFreetypeSource = false
      ∧ (includes d include_imgui_docking).any isFreetypeSource = false
      ∧ (includes d include_imgui_master).any isFreetypeSource = false)
    ∧ "./third-party/imgui-docking-freetype/imgui/misc/freetype/imgui_freetype.cpp"
        ∈ includes d include_imgui_docking_freetype
    ∧ (includes d include_imgui_docking_freetype).any isFreetypeSource = true := by
  have hd := includes_depends_on_flag .docking d
  have hm := includes_depends_on_flag .master d
  have hv := includes_depends_on_flag .vanilla d
  have hf := includes_depends_on_flag .dockingFreetype d
  simp only [Variant.unit] at hd hm hv hf
  rw [hd, hm, hv, hf]
  refine ⟨?_, ?_, ?_⟩
  · intro h
    rw [h]
    decide
  · cases d freetypeFlag <;> decide
  · cases d freetypeFlag <;> decide

/-- C1, amended, at the setting in which only `CIMGUI_USE_GLFW` is defined, where the flag
is not defined, and for the docking+hinting unit at the setting in which the flag is
defined. -/
theorem no_freetype_source_without_flag_witness :
    onlyDefined "CIMGUI_USE_GLFW" freetypeFlag = false
    ∧ ((includes (onlyDefined "CIMGUI_USE_GLFW") include_all_imgui).any isFreetypeSource = false
      ∧ (includes (onlyDefined "CIMGUI_USE_GLFW") include_imgui_docking).any isFreetypeSource
          = false
      ∧ (includes (onlyDefined "CIMGUI_USE_GLFW") include_imgui_master).any isFreetypeSource
          = false)
    ∧ onlyDefined freetypeFlag freetypeFlag = true
    ∧ (includes (onlyDefined freetypeFlag) include_imgui_docking_freetype).any isFreetypeSource
        = true :=
  ⟨by decide,
    (no_freetype_source_without_flag (onlyDefined "CIMGUI_USE_GLFW")).1 (by decide),
    by decide,
    (no_freetype_source_without_flag (onlyDefined freetypeFlag)).2.2⟩

/-- C8, the claim as stated fails: the docking unit takes its engine sources from the
directory `imgui-docking` and its facade source from the directory `cimgui-docking`, so no
single vendored directory holds all of its sources. -/
theorem docking_unit_has_two_vendored_dirs :
    "./third-party/imgui-docking/imgui.cpp" ∈ includes noneDefined include_imgui_docking
    ∧ isEngineSource "./third-party/imgui-docking/imgui.cpp" = true
    ∧ vendorDir "./third-party/imgui-docking/imgui.cpp" = "imgui-docking"
    ∧ "./third-party/cimgui-docking/cimgui.cpp" ∈ includes noneDefined include_imgui_docking
    ∧ isFacadeSource "./third-party/cimgui-docking/cimgui.cpp" = true
    ∧ vendorDir "./third-party/cimgui-docking/cimgui.cpp" = "cimgui-docking"
    ∧ ¬ ∃ dir, ∀ p ∈ includes noneDefined include_imgui_docking, vendorDir p = dir := by
  refine ⟨by decide, by decide, by decide, by decide, by decide, by decide, ?_⟩
  rintro ⟨dir, h⟩
  have h1 := h "./third-party/imgui-docking/imgui.cpp" (by decide)
  have h2 := h "./third-party/cimgui-docking/cimgui.cpp" (by decide)
  rw [← h1] at h2
  exact absurd h2 (by decide)

/-- C8, amended: under all settings and for every variant `v`, the unit's include list is
a non-empty run of engine sources, then exactly one facade source (`cimgui.cpp`), then
font-hinting sources only; every source other than the facade comes from the directory
`v.engineDir` and the facade from `v.facadeDir`, which is the same directory except in the
docking unit (`imgui-docking` and `cimgui-docking`); and for a different variant `w` the two
units share neither an include path nor a vendored directory. -/
theorem variant_units_isolated (v w : Variant) (d1 d2 : String → Bool) (hvw : v ≠ w) :
    (includes d1 v.unit).countP isFacadeSource = 1
    ∧ (∃ es f hs, includes d1 v.unit = es ++ f :: hs ∧ es ≠ []
        ∧ es.all isEngineSource = true ∧ isFacadeSource f = true
        ∧ hs.all isFreetypeSource = true)
    ∧ (includes d1 v.unit).all
        (fun p => vendorDir p == if isFacadeSource p then v.facadeDir else v.engineDir) = true
    ∧ (v.facadeDir = v.engineDir ↔ v ≠ Variant.docking)
    ∧ List.Disjoint (includes d1 v.unit) (includes d2 w.unit)
    ∧ List.Disjoint ((includes d1 v.unit).map vendorDir) ((includes d2 w.unit).map vendorDir) := by
  rw [includes_depends_on_flag v d1, includes_depends_on_flag w d2]
  generalize d1 freetypeFlag = b1
  generalize d2 freetypeFlag = b2
  refine ⟨?_, ⟨(includes (fun _ => b1) v.unit).takeWhile isEngineSource,
    ((includes (fun _ => b1) v.unit).dropWhile isEngineSource).headD "",
    ((includes (fun _ => b1) v.unit).dropWhile isEngineSource).tail, ?_⟩, ?_, ?_, ?_, ?_⟩
  · cases v <;> cases b1 <;> decide
  · cases v <;> cases b1 <;> decide
  · cases v <;> cases b1 <;> decide
  · cases v <;> decide
  · rw [List.disjoint_left]
    revert hvw; cases v <;> cases w <;> cases b1 <;> cases b2 <;> decide
  · rw [List.disjoint_left]
    revert hvw; cases v <;> cases w <;> cases b1 <;> cases b2 <;> decide

/-- C8, amended, at the docking and latest-tracking variants with the font-hinting flag
defined for the first and no name defined for the second. -/
theorem variant_units_isolated_witness :
    Variant.docking ≠ Variant.master
    ∧ (includes (onlyDefined freetypeFlag) Variant.docking.unit).countP isFacadeSource = 1
    ∧ List.Disjoint (includes (onlyDefined freetypeFlag) Variant.docking.unit)
        (includes noneDefined Variant.master.unit) :=
  have h := variant_units_isolated Variant.docking Variant.master (onlyDefined freetypeFlag)
    noneDefined (by decide)
  ⟨by decide, h.1, h.2.2.2.2.1⟩

/-! ## The header: what depends on the capability flags -/

/-- Membership in the extracted function declarations. -/
theorem mem_functionsOf (f : FuncDecl) (ds : List Decl) :
    f ∈ functionsOf ds ↔ Decl.func f ∈ ds := by
  induction ds with
  | nil => simp [functionsOf]
  | cons x rest ih => cases x <;> simp [functionsOf, ih]

/-- Every function declared under some setting is written in the header. -/
theorem declaredFunctions_subset (d : String → Bool) :
    declaredFunctions d ⊆ headerFunctions := by
  intro f hf
  rw [declaredFunctions, mem_functionsOf] at hf
  rw [headerFunctions, mem_functionsOf]
  exact preprocess_subset_allItems d _ _ hf

/-- The declarations of the header depend on the setting only through the four capability
flags. -/
theorem declarations_eq_capabilities (d : String → Bool) :
    declarations d =
      declarations (capabilities (d "CIMGUI_USE_GLFW") (d "CIMGUI_USE_OPENGL3")
        (d "CIMGUI_USE_OPENGL2") (d "CIMGUI_USE_SDL2")) := by
  apply preprocess_congr
  intro m hm
  have hm2 : m = "CIMGUI_USE_GLFW" ∨ m = "CIMGUI_USE_OPENGL3" ∨ m = "CIMGUI_USE_OPENGL2"
      ∨ m = "CIMGUI_USE_SDL2" := by
    simpa [testedNames, cimgui_impl_h, fn, fnVoid] using hm
  rcases hm2 with h | h | h | h <;> subst h <;> simp [capabilities]

/-- The value of a backend's flag under `capabilities`. -/
theorem capabilities_flag (g o3 o2 s : Bool) (b : Backend) :
    capabilities g o3 o2 s b.flag =
      match b with
      | .glfw => g
      | .opengl3 => o3
      | .opengl2 => o2
      | .sdl2 => s := by
  cases b <;> simp [capabilities, Backend.flag]

/-- The functions of a backend under `capabilities`: all the functions the header writes
with the backend's leading name part when its flag is set, none otherwise. -/
theorem group_capabilities :
    ∀ g o3 o2 s : Bool, ∀ b : Backend,
      group (capabilities g o3 o2 s) b =
        if capabilities g o3 o2 s b.flag then headerFunctions.filter (inGroup b) else [] := by
  decide

/-- The functions of a backend depend on the setting only through the capability flags. -/
theorem group_eq_capabilities (d : String → Bool) (b : Backend) :
    group d b =
      group (capabilities (d "CIMGUI_USE_GLFW") (d "CIMGUI_USE_OPENGL3")
        (d "CIMGUI_USE_OPENGL2") (d "CIMGUI_USE_SDL2")) b :=
  congrArg (fun ds => (functionsOf ds).filter (inGroup b)) (declarations_eq_capabilities d)

/-- Under `capabilities` built from a setting, a backend's flag has the value the setting
gives it. -/
theorem capabilities_of_setting (d : String → Bool) (b : Backend) :
    capabilities (d "CIMGUI_USE_GLFW") (d "CIMGUI_USE_OPENGL3") (d "CIMGUI_USE_OPENGL2")
      (d "CIMGUI_USE_SDL2") b.flag = d b.flag := by
  rw [capabilities_flag]
  cases b <;> rfl

/-- The functions of a backend under any setting. -/
theorem group_eq (d : String → Bool) (b : Backend) :
    group d b = if d b.flag then headerFunctions.filter (inGroup b) else [] := by
  rw [group_eq_capabilities, group_capabilities, capabilities_of_setting]

/-- C2: under every setting of names `d` and for every backend `b`, the declared functions
whose name has the leading part of `b` are all such functions of the header when the flag of
`b` is defined and none otherwise; so a header function of group `b` is declared if and only
if the flag of `b` is defined, and some function of group `b` is declared if and only if the
flag is defined; every header function belongs to exactly one group; with no flag defined
the header declares nothing; and the declared functions of `b` are the same under any two
settings that agree on the flag of `b`. -/
theorem declared_iff_flag_defined (d : String → Bool) (b : Backend) :
    group d b = (if d b.flag then headerFunctions.filter (inGroup b) else [])
    ∧ (∀ f ∈ headerFunctions, inGroup b f = true → (f ∈ declaredFunctions d ↔ d b.flag = true))
    ∧ ((∃ f ∈ declaredFunctions d, inGroup b f = true) ↔ d b.flag = true)
    ∧ (∀ f ∈ headerFunctions, (∃ b1 : Backend, inGroup b1 f = true)
        ∧ ∀ b1 b2 : Backend, inGroup b1 f = true → inGroup b2 f = true → b1 = b2)
    ∧ ((∀ b2 : Backend, d b2.flag = false) → declarations d = [])
    ∧ (∀ d2 : String → Bool, d2 b.flag = d b.flag → group d2 b = group d b) := by
  have hg := group_eq d b
  have hne : ∀ b2 : Backend, headerFunctions.filter (inGroup b2) ≠ [] := by decide
  refine ⟨hg, ?_, ?_, by decide, ?_, ?_⟩
  · intro f hf hb
    have hmem : f ∈ declaredFunctions d ↔ f ∈ group d b := by
      simp [group, List.mem_filter, hb]
    rw [hmem, hg]
    cases d b.flag <;> simp [List.mem_filter, hf, hb]
  · constructor
    · rintro ⟨f, hf, hb⟩
      have hmem : f ∈ group d b := by simp [group, List.mem_filter, hf, hb]
      rw [hg] at hmem
      cases h : d b.flag
      · simp [h] at hmem
      · rfl
    · intro h
      have hmem : ∀ f, f ∈ group d b → f ∈ declaredFunctions d ∧ inGroup b f = true := by
        intro f hf
        simpa [group, List.mem_filter] using hf
      rw [hg, h] at hmem
      obtain ⟨f, hf⟩ := List.exists_mem_of_ne_nil _ (hne b)
      exact ⟨f, hmem f hf⟩
  · intro hall
    rw [declarations_eq_capabilities]
    have h1 := hall .glfw
    have h2 := hall .opengl3
    have h3 := hall .opengl2
    have h4 := hall .sdl2
    simp only [Backend.flag] at h1 h2 h3 h4
    rw [h1, h2, h3, h4]
    decide
  · intro d2 h2
    rw [group_eq d2 b, hg, h2]

/-- C2 at the setting in which only `CIMGUI_USE_SDL2` is defined: an SDL2 function is
declared, and no GLFW function is. -/
theorem declared_iff_flag_defined_witness :
    flagsDefined [Backend.sdl2] Backend.sdl2.flag = true
    ∧ (∃ f ∈ declaredFunctions (flagsDefined [Backend.sdl2]), inGroup Backend.sdl2 f = true)
    ∧ group (flagsDefined [Backend.sdl2]) Backend.glfw = [] :=
  ⟨by decide,
    (declared_iff_flag_defined (flagsDefined [Backend.sdl2]) Backend.sdl2).2.2.1.mpr (by decide),
    (declared_iff_flag_defined (flagsDefined [Backend.sdl2]) Backend.glfw).1.trans (by decide)⟩

/-- C3: every function declared under any setting belongs to a backend group, and within
its group it returns `bool` if and only if its operation name begins with `Init` or
`Create` or is `ProcessEvent`; any other declared function returns `void`. -/
theorem bool_return_iff_status_operation (d : String → Bool) (f : FuncDecl)
    (hf : f ∈ declaredFunctions d) :
    (∃ b : Backend, inGroup b f = true)
    ∧ ∀ b : Backend, inGroup b f = true →
        ((f.ret = CType.bool ↔ returnsStatus (opName b f) = true)
          ∧ (returnsStatus (opName b f) = false → f.ret = CType.void)) := by
  have key : ∀ g ∈ headerFunctions,
      (∃ b : Backend, inGroup b g = true)
      ∧ ∀ b : Backend, inGroup b g = true →
          ((g.ret = CType.bool ↔ returnsStatus (opName b g) = true)
            ∧ (returnsStatus (opName b g) = false → g.ret = CType.void)) := by
    decide
  exact key f (declaredFunctions_subset d hf)

/-- C3 at `ImGui_ImplSDL2_ProcessEvent` with only `CIMGUI_USE_SDL2` defined. -/
theorem bool_return_iff_status_operation_witness :
    (⟨CType.bool, "ImGui_ImplSDL2_ProcessEvent",
        ParamList.list [arg (CType.ptr (CType.const (CType.named "SDL_Event"))) "event"]⟩ : FuncDecl)
      ∈ declaredFunctions (flagsDefined [Backend.sdl2])
    ∧ returnsStatus (opName Backend.sdl2
        ⟨CType.bool, "ImGui_ImplSDL2_ProcessEvent",
          ParamList.list [arg (CType.ptr (CType.const (CType.named "SDL_Event"))) "event"]⟩) = true :=
  ⟨by decide,
    (((bool_return_iff_status_operation (flagsDefined [Backend.sdl2]) _ (by decide)).2
      Backend.sdl2 (by decide)).1).mp rfl⟩

/-- The declaration found for an operation of a backend whose flag is defined. -/
theorem findOp_of_flag (d : String → Bool) (b : Backend) (op : String) (h : d b.flag = true) :
    findOp d b op = (headerFunctions.filter (inGroup b)).find? (fun f => opName b f == op) := by
  simp [findOp, group_eq, h]

/-- The operations of a backend whose flag is defined. -/
theorem operations_of_flag (d : String → Bool) (b : Backend) (h : d b.flag = true) :
    operations d b = (headerFunctions.filter (inGroup b)).map (opName b) := by
  simp [operations, group_eq, h]

/-- C4, the claim as stated fails: with `CIMGUI_USE_SDL2` defined, the SDL2 group declares
`InitForVulkan` with the window as its only parameter; it has no `install_callbacks`. -/
theorem sdl2_InitForVulkan_takes_window_only :
    findOp (flagsDefined [Backend.sdl2]) Backend.sdl2 "InitForVulkan" =
        some ⟨CType.bool, "ImGui_ImplSDL2_InitForVulkan", ParamList.list [arg sdlWindowPtr "window"]⟩
    ∧ (paramsOf ⟨CType.bool, "ImGui_ImplSDL2_InitForVulkan",
        ParamList.list [arg sdlWindowPtr "window"]⟩).length = 1 := by
  decide

/-- C4, amended: for each of the operations `InitForOpenGL`, `InitForVulkan`, `InitForOther`,
the GLFW group, when its flag is defined, declares it exactly once, returning `bool` and
taking `(GLFWwindow* window, bool install_callbacks)`; the SDL2 group, when its flag is
defined, declares it exactly once, returning `bool` and taking `SDL_Window* window`, followed
by `void* sdl_gl_context` for `InitForOpenGL` and by nothing for the other two. -/
theorem platform_initialisers (d : String → Bool) (op : String)
    (hop : op ∈ ["InitForOpenGL", "InitForVulkan", "InitForOther"]) :
    (d "CIMGUI_USE_GLFW" = true →
      (operations d Backend.glfw).count op = 1
      ∧ findOp d Backend.glfw op =
          some ⟨CType.bool, Backend.glfw.head ++ op,
            ParamList.list [arg glfwWindowPtr "window", arg CType.bool "install_callbacks"]⟩)
    ∧ (d "CIMGUI_USE_SDL2" = true →
      (operations d Backend.sdl2).count op = 1
      ∧ findOp d Backend.sdl2 op =
          some ⟨CType.bool, Backend.sdl2.head ++ op,
            ParamList.list (arg sdlWindowPtr "window" ::
              if op = "InitForOpenGL" then [arg (CType.ptr CType.void) "sdl_gl_context"]
              else [])⟩) := by
  constructor
  · intro h
    have h2 : d Backend.glfw.flag = true := h
    rw [operations_of_flag d _ h2, findOp_of_flag d _ op h2]
    revert op
    decide
  · intro h
    have h2 : d Backend.sdl2.flag = true := h
    rw [operations_of_flag d _ h2, findOp_of_flag d _ op h2]
    revert op
    decide

/-- C4, amended, at `InitForOther` with both platform flags defined. -/
theorem platform_initialisers_witness :
    "InitForOther" ∈ ["InitForOpenGL", "InitForVulkan", "InitForOther"]
    ∧ flagsDefined [Backend.glfw, Backend.sdl2] "CIMGUI_USE_GLFW" = true
    ∧ flagsDefined [Backend.glfw, Backend.sdl2] "CIMGUI_USE_SDL2" = true
    ∧ findOp (flagsDefined [Backend.glfw, Backend.sdl2]) Backend.glfw "InitForOther" =
        some ⟨CType.bool, "ImGui_ImplGlfw_InitForOther",
          ParamList.list [arg glfwWindowPtr "window", arg CType.bool "install_callbacks"]⟩
    ∧ findOp (flagsDefined [Backend.glfw, Backend.sdl2]) Backend.sdl2 "InitForOther" =
        some ⟨CType.bool, "ImGui_ImplSDL2_InitForOther",
          ParamList.list [arg sdlWindowPtr "window"]⟩ :=
  have h := platform_initialisers (flagsDefined [Backend.glfw, Backend.sdl2]) "InitForOther"
    (by decide)
  ⟨by decide, by decide, by decide, (h.1 (by decide)).2, (h.2 (by decide)).2⟩

/-- C5, the claim as stated fails: with `CIMGUI_USE_OPENGL2` defined, the OpenGL2 group
declares `Init` with the parameter list `(void)`; it takes no version string. -/
theorem opengl2_Init_takes_no_parameter :
    findOp (flagsDefined [Backend.opengl2]) Backend.opengl2 "Init" =
        some ⟨CType.bool, "ImGui_ImplOpenGL2_Init", ParamList.void⟩
    ∧ paramsOf ⟨CType.bool, "ImGui_ImplOpenGL2_Init", ParamList.void⟩ = [] := by
  decide

/-- C5, amended: each renderer group (OpenGL3, OpenGL2), when its flag is defined, declares
exactly the eight operations `Init`, `Shutdown`, `NewFrame`, `RenderDrawData`,
`CreateFontsTexture`, `DestroyFontsTexture`, `CreateDeviceObjects`, `DestroyDeviceObjects`;
`Init` returns `bool` and takes one `const char*` parameter in OpenGL3 and no parameter in
OpenGL2; `RenderDrawData` takes one `ImDrawData*` parameter; and for each operation
`Create`+X there is an operation `Destroy`+X declared with `(void)`. -/
theorem renderer_operations (d : String → Bool) (b : Backend)
    (hb : b = Backend.opengl3 ∨ b = Backend.opengl2) (hd : d b.flag = true) :
    operations d b =
        ["Init", "Shutdown", "NewFrame", "RenderDrawData", "CreateFontsTexture",
          "DestroyFontsTexture", "CreateDeviceObjects", "DestroyDeviceObjects"]
    ∧ findOp d b "Init" =
        some ⟨CType.bool, b.head ++ "Init",
          if b = Backend.opengl3 then
            ParamList.list [arg (CType.ptr (CType.const CType.char)) "glsl_version"]
          else ParamList.void⟩
    ∧ findOp d b "RenderDrawData" =
        some ⟨CType.void, b.head ++ "RenderDrawData",
          ParamList.list [arg (CType.ptr (CType.named "ImDrawData")) "draw_data"]⟩
    ∧ ∀ f ∈ group d b, beginsWith "Create" (opName b f) = true →
        ∃ g ∈ group d b,
          opName b g = "Destroy" ++ String.mk ((opName b f).data.drop 6)
          ∧ g.params = ParamList.void := by
  rw [operations_of_flag d b hd, findOp_of_flag d b _ hd, findOp_of_flag d b _ hd, group_eq, hd]
  rcases hb with h | h <;> subst h <;> decide

/-- C5, amended, at the OpenGL2 group with only `CIMGUI_USE_OPENGL2` defined. -/
theorem renderer_operations_witness :
    flagsDefined [Backend.opengl2] Backend.opengl2.flag = true
    ∧ operations (flagsDefined [Backend.opengl2]) Backend.opengl2 =
        ["Init", "Shutdown", "NewFrame", "RenderDrawData", "CreateFontsTexture",
          "DestroyFontsTexture", "CreateDeviceObjects", "DestroyDeviceObjects"] :=
  ⟨by decide,
    (renderer_operations (flagsDefined [Backend.opengl2]) Backend.opengl2 (Or.inr rfl)
      (by decide)).1⟩

/-- C6: under every setting, each declared function has a C-compatible return type and
C-compatible parameter types (`void`, `bool`, `int`, `unsigned int`, `double`, an enum the
header declares under that setting, or a pointer to `void`, to `const char`, to a struct or
union, or to another pointer), no reference type, no default argument, and is never declared
with the empty list `()`: a function without parameters is declared with `(void)`. -/
theorem declared_functions_c_compatible (d : String → Bool) (f : FuncDecl)
    (hf : f ∈ declaredFunctions d) :
    cCompatible (declarations d) f.ret = true
    ∧ usesReference f.ret = false
    ∧ f.params ≠ ParamList.list []
    ∧ ∀ p ∈ paramsOf f,
        cCompatible (declarations d) p.ty = true ∧ usesReference p.ty = false
        ∧ p.defaultArg = none := by
  have key : ∀ g o3 o2 s : Bool, ∀ f ∈ declaredFunctions (capabilities g o3 o2 s),
      cCompatible (declarations (capabilities g o3 o2 s)) f.ret = true
      ∧ usesReference f.ret = false
      ∧ f.params ≠ ParamList.list []
      ∧ ∀ p ∈ paramsOf f,
          cCompatible (declarations (capabilities g o3 o2 s)) p.ty = true
          ∧ usesReference p.ty = false ∧ p.defaultArg = none := by
    decide
  rw [declaredFunctions, declarations_eq_capabilities d] at hf
  rw [declarations_eq_capabilities d]
  exact key _ _ _ _ f hf

/-- C6 at `ImGui_ImplSDL2_SetGamepadMode` with only `CIMGUI_USE_SDL2` defined: the enum, the
pointer to pointer to struct and the `int` are C-compatible. -/
theorem declared_functions_c_compatible_witness :
    (⟨CType.void, "ImGui_ImplSDL2_SetGamepadMode",
        ParamList.list
          [arg (CType.named "ImGui_ImplSDL2_GamepadMode") "mode",
            arg (CType.ptr (CType.ptr (CType.structTag "_SDL_GameController")))
              "manual_gamepads_array",
            arg CType.int "manual_gamepads_count"]⟩ : FuncDecl)
      ∈ declaredFunctions (flagsDefined [Backend.sdl2])
    ∧ cCompatible (declarations (flagsDefined [Backend.sdl2]))
        (CType.ptr (CType.ptr (CType.structTag "_SDL_GameController"))) = true :=
  ⟨by decide,
    ((declared_functions_c_compatible (flagsDefined [Backend.sdl2])
      ⟨CType.void, "ImGui_ImplSDL2_SetGamepadMode",
        ParamList.list
          [arg (CType.named "ImGui_ImplSDL2_GamepadMode") "mode",
            arg (CType.ptr (CType.ptr (CType.structTag "_SDL_GameController")))
              "manual_gamepads_array",
            arg CType.int "manual_gamepads_count"]⟩ (by decide)).2.2.2
      (arg (CType.ptr (CType.ptr (CType.structTag "_SDL_GameController")))
        "manual_gamepads_array") (by decide)).1⟩

/-! ## GLFW callbacks: install, then restore -/

/-- C9: for every window and every state of the registered callbacks, installing the
backend's callbacks on the window and then restoring them leaves every window, the given one
included, and the monitor slot with exactly the callback pointers registered before the
installation; in between, the window carries the backend's handlers. -/
theorem restore_after_install (window : Nat) (s : GlfwState) :
    (ImGui_ImplGlfw_RestoreCallbacks window (ImGui_ImplGlfw_InstallCallbacks window s)).callbacks
        = s.callbacks
    ∧ (ImGui_ImplGlfw_RestoreCallbacks window (ImGui_ImplGlfw_InstallCallbacks window s)).monitor
        = s.monitor
    ∧ (ImGui_ImplGlfw_RestoreCallbacks window (ImGui_ImplGlfw_InstallCallbacks window s)).installed
        = false
    ∧ (ImGui_ImplGlfw_InstallCallbacks window s).callbacks window = Handler.backendWindow := by
  refine ⟨?_, rfl, rfl, ?_⟩
  · funext w e
    by_cases h : w = window
    · subst h
      simp [ImGui_ImplGlfw_RestoreCallbacks, ImGui_ImplGlfw_InstallCallbacks]
    · simp [ImGui_ImplGlfw_RestoreCallbacks, ImGui_ImplGlfw_InstallCallbacks, h]
  · funext e
    simp [ImGui_ImplGlfw_InstallCallbacks]

end ImguiSys
